import Mathlib

/-!
Shallow embedding of the Cryvex wallet-dashboard core logic.

Sources embedded:
- `src/src/lib/solana.ts` : `processTransaction` (the transaction normalizer),
  `getTokenAccounts`, and the `TransactionAnalyzer` methods `isTradeTransaction`,
  `classifyTradeType`, `calculateTradeValue`, `analyzeBatch` (its metric
  computation).
- `src/src/WalletAnalyzer.tsx` : the portfolio-value aggregation inside
  `fetchWalletData`.
- `src/unnamed/part_005` (`lib/price.ts`) : `PriceManager.getSolanaPrice`.
- `src/unnamed/part_003` (`lib/helius.ts`) : the `HeliusTransaction` and
  `TokenMetadata` interfaces.

JavaScript numbers are modelled as `ℚ`; all string data in play is ASCII, so
`String.prototype.toLowerCase` is modelled by ASCII lower-casing.
-/

set_option maxRecDepth 100000

/- Batteries marks the rational-arithmetic primitives irreducible, which
blocks `decide`/`rfl` evaluation of the embedded definitions on concrete
inputs; restore the default reducibility for this development. -/
attribute [local semireducible] Rat.add Rat.mul Rat.sub Rat.inv

/-- ASCII lower-casing of one character, modelling what
`String.prototype.toLowerCase` does on the ASCII strings this code handles. -/
def lowerChar (c : Char) : Char :=
  if 65 ≤ c.toNat ∧ c.toNat ≤ 90 then Char.ofNat (c.toNat + 32) else c

/-- ASCII model of `String.prototype.toLowerCase`. -/
def strToLower (s : String) : String :=
  ⟨s.data.map lowerChar⟩

/-- Decides whether `pat` is a prefix of `s` (character lists). -/
def prefChars : List Char → List Char → Bool
  | [], _ => true
  | _ :: _, [] => false
  | a :: as, b :: bs => a = b && prefChars as bs

/-- Decides whether `pat` occurs contiguously inside `s` (character lists). -/
def subChars (pat : List Char) : List Char → Bool
  | [] => pat.isEmpty
  | b :: bs => prefChars pat (b :: bs) || subChars pat bs

/-- Model of JavaScript `String.prototype.includes`. -/
def strContains (s pat : String) : Bool :=
  subChars pat.data s.data

/-- One native-currency transfer of a `HeliusTransaction`
(`src/unnamed/part_003` lines 13-17). Amounts are in lamports. -/
structure NativeTransfer where
  fromUserAccount : String
  toUserAccount : String
  amount : ℚ
deriving DecidableEq

/-- One fungible-token transfer of a `HeliusTransaction`
(`src/unnamed/part_003` lines 18-23). -/
structure TokenTransfer where
  fromUserAccount : String
  toUserAccount : String
  mint : String
  amount : ℚ
deriving DecidableEq

/-- One token-balance delta inside an `accountData` entry
(`src/unnamed/part_003` lines 27-30). -/
structure TokenBalanceChange where
  mint : String
  amount : ℚ
deriving DecidableEq

/-- One per-account balance-change record of a `HeliusTransaction`
(`src/unnamed/part_003` lines 24-31). -/
structure AccountData where
  account : String
  nativeBalanceChange : ℚ
  tokenBalanceChanges : List TokenBalanceChange
deriving DecidableEq

/-- The raw transaction record (`HeliusTransaction`, `src/unnamed/part_003`
lines 7-32). The interface declares `signature`, `type`, `timestamp`, `slot`,
`fee`, `nativeTransfers`, `tokenTransfers`, `accountData`; the runtime object
additionally carries a `source` account field, which `classifyTradeType`
(`src/src/lib/solana.ts` lines 360 and 373) reads, so it is modelled here
as an extra field. -/
structure HeliusTx where
  signature : String
  type : String
  timestamp : ℚ
  slot : ℚ
  fee : ℚ
  nativeTransfers : List NativeTransfer
  tokenTransfers : List TokenTransfer
  accountData : List AccountData
  source : String
deriving DecidableEq

/-- Serialization of a rational the way the JavaScript number would be written
by `JSON.stringify`: integers print exactly; non-integers diverge in format
(JS prints decimals, this prints `num/den`) but never introduce letters, so
every keyword-membership test over the serialized text is unaffected. -/
def qStr (q : ℚ) : String := toString q

/-- JSON quoting of a string value (the strings in play need no escaping). -/
def jsonQ (s : String) : String := "\"" ++ s ++ "\""

/-- Serialization of one native transfer as `JSON.stringify` renders it. -/
def jsonNativeTransfer (t : NativeTransfer) : String :=
  "\x7b\"fromUserAccount\":" ++ jsonQ t.fromUserAccount ++
  ",\"toUserAccount\":" ++ jsonQ t.toUserAccount ++
  ",\"amount\":" ++ qStr t.amount ++ "\x7d"

/-- Serialization of one token transfer as `JSON.stringify` renders it. -/
def jsonTokenTransfer (t : TokenTransfer) : String :=
  "\x7b\"fromUserAccount\":" ++ jsonQ t.fromUserAccount ++
  ",\"toUserAccount\":" ++ jsonQ t.toUserAccount ++
  ",\"mint\":" ++ jsonQ t.mint ++
  ",\"amount\":" ++ qStr t.amount ++ "\x7d"

/-- Serialization of one token-balance change as `JSON.stringify` renders it. -/
def jsonTokenBalanceChange (t : TokenBalanceChange) : String :=
  "\x7b\"mint\":" ++ jsonQ t.mint ++ ",\"amount\":" ++ qStr t.amount ++ "\x7d"

/-- Serialization of one `accountData` entry as `JSON.stringify` renders it. -/
def jsonAccountData (a : AccountData) : String :=
  "\x7b\"account\":" ++ jsonQ a.account ++
  ",\"nativeBalanceChange\":" ++ qStr a.nativeBalanceChange ++
  ",\"tokenBalanceChanges\":[" ++
  String.intercalate "," (a.tokenBalanceChanges.map jsonTokenBalanceChange) ++
  "]\x7d"

/-- Model of `JSON.stringify(tx)` on a `HeliusTransaction` runtime object,
with fields in the interface's declaration order followed by `source`.
Key order in the real payload may differ, but every membership test applied to
this text (`includes` of a fixed keyword) only asks whether a keyword occurs
in the field names or field values, which is order-independent; the fixed
field names contain none of the tested keywords. -/
def jsonStringify (tx : HeliusTx) : String :=
  "\x7b\"signature\":" ++ jsonQ tx.signature ++
  ",\"type\":" ++ jsonQ tx.type ++
  ",\"timestamp\":" ++ qStr tx.timestamp ++
  ",\"slot\":" ++ qStr tx.slot ++
  ",\"fee\":" ++ qStr tx.fee ++
  ",\"nativeTransfers\":[" ++
  String.intercalate "," (tx.nativeTransfers.map jsonNativeTransfer) ++
  "],\"tokenTransfers\":[" ++
  String.intercalate "," (tx.tokenTransfers.map jsonTokenTransfer) ++
  "],\"accountData\":[" ++
  String.intercalate "," (tx.accountData.map jsonAccountData) ++
  "],\"source\":" ++ jsonQ tx.source ++ "\x7d"

/-- Lower-cased serialization of the whole transaction, as computed by
`JSON.stringify(tx).toLowerCase()` in `processTransaction` (line 86),
`isTradeTransaction` (line 309) and `classifyTradeType` (line 350) of
`src/src/lib/solana.ts`. -/
def txLowerString (tx : HeliusTx) : String :=
  strToLower (jsonStringify tx)

/-- The swap-keyword heuristic of `processTransaction`
(`src/src/lib/solana.ts` lines 86-87): the lower-cased serialized transaction
contains `swap`, `jupiter` or `orca`. -/
def swapKeywordHit (tx : HeliusTx) : Bool :=
  strContains (txLowerString tx) "swap" ||
  strContains (txLowerString tx) "jupiter" ||
  strContains (txLowerString tx) "orca"

/-- Constant `LAMPORTS_PER_SOL` from `@solana/web3.js`. -/
def LAMPORTS_PER_SOL : ℚ := 1000000000

/-- Constant `MIN_SOL_AMOUNT` of `processTransaction` (`src/src/lib/solana.ts`
line 48). -/
def MIN_SOL_AMOUNT : ℚ := 1 / 1000

/-- Three-digit padding of the fractional part used by `toFixed3`. -/
def natPad3 (n : ℕ) : String :=
  if n < 10 then "00" ++ toString n
  else if n < 100 then "0" ++ toString n
  else toString n

/-- Model of JavaScript `Number.prototype.toFixed(3)` (round half away from
zero on the exact rational; the double-precision original can differ at
representation boundaries, which no theorem below depends on). -/
def toFixed3 (q : ℚ) : String :=
  let m : ℤ := ⌊(if q < 0 then -q else q) * 1000 + 1 / 2⌋
  let mn : ℕ := m.toNat
  let s := toString (mn / 1000) ++ "." ++ natPad3 (mn % 1000)
  if q < 0 then "-" ++ s else s

/-- The four mutable locals of `processTransaction`
(`src/src/lib/solana.ts` lines 51-54) after steps 1-4 have run. -/
structure InferredTx where
  type : String
  amount : ℚ
  tokenSymbol : String
  description : String
deriving DecidableEq

/-- Steps 1-4 of `processTransaction` (`src/src/lib/solana.ts` lines 51-90):
defaults, the native-transfer branch, the token-transfer branch (a plain `if`,
not an `else if`: it runs whenever token transfers exist), and the
swap-keyword override. `tx.type || 'Unknown'` maps the empty string to
`"Unknown"`. -/
def inferTransaction (tx : HeliusTx) (walletAddress : String) : InferredTx :=
  let s1 : InferredTx :=
    { type := if tx.type = "" then "Unknown" else tx.type
      amount := 0
      tokenSymbol := "SOL"
      description := "" }
  let s2 : InferredTx :=
    match tx.nativeTransfers with
    | [] => s1
    | t :: _ =>
      let amount := t.amount / LAMPORTS_PER_SOL
      if t.fromUserAccount = walletAddress then
        { s1 with amount := amount, type := "Send SOL",
                  description := "Sent " ++ toFixed3 amount ++ " SOL" }
      else if t.toUserAccount = walletAddress then
        { s1 with amount := amount, type := "Receive SOL",
                  description := "Received " ++ toFixed3 amount ++ " SOL" }
      else
        { s1 with amount := amount }
  let s3 : InferredTx :=
    match tx.tokenTransfers with
    | [] => s2
    | t :: _ =>
      let base := { s2 with amount := t.amount, tokenSymbol := "Token" }
      if t.fromUserAccount = walletAddress then
        { base with type := "Send Token",
                    description := "Sent " ++ qStr t.amount ++ " Token" }
      else if t.toUserAccount = walletAddress then
        { base with type := "Receive Token",
                    description := "Received " ++ qStr t.amount ++ " Token" }
      else
        base
  if swapKeywordHit tx then
    { s3 with type := "Swap", description := "Token Swap" }
  else
    s3

/-- The normalized transaction record (`ProcessedTransaction`,
`src/src/lib/solana.ts` lines 17-26). All optional fields are always set by
`processTransaction`, so they are plain fields here. -/
structure ProcessedTransaction where
  signature : String
  type : String
  amount : ℚ
  timestamp : ℚ
  status : String
  tokenSymbol : String
  fee : ℚ
  description : String
deriving DecidableEq

/-- The body of `processTransaction` after inference
(`src/src/lib/solana.ts` lines 92-111): the dust filter, the zero filter, and
record construction. `now` stands for `Date.now()`, substituted when
`tx.timestamp` is falsy (`tx.timestamp || Date.now()`); `tx.signature || ''`
and `tx.fee || 0` are the identity on the modelled values. -/
def processTransactionCore (tx : HeliusTx) (walletAddress : String) (now : ℚ) :
    Option ProcessedTransaction :=
  let r := inferTransaction tx walletAddress
  if r.tokenSymbol = "SOL" ∧ r.amount < MIN_SOL_AMOUNT then none
  else if r.amount = 0 then none
  else some
    { signature := tx.signature
      type := r.type
      amount := r.amount
      timestamp := if tx.timestamp = 0 then now else tx.timestamp
      status := "success"
      tokenSymbol := r.tokenSymbol
      fee := tx.fee
      description := r.description }

/-- The try-block of `processTransaction` with its throwing operations made
explicit: the input is nullable (`HeliusTransaction | null`), and the very
first property access `tx.type` on a null value throws a `TypeError`
(the only throwing operation reachable on well-typed data). -/
def processTransactionBody (txq : Option HeliusTx) (walletAddress : String)
    (now : ℚ) : Except String (Option ProcessedTransaction) :=
  match txq with
  | none => Except.error "TypeError: Cannot read properties of null"
  | some tx => Except.ok (processTransactionCore tx walletAddress now)

/-- Function `processTransaction` (`src/src/lib/solana.ts` lines 46-116): the whole
body is wrapped in `try/catch`, and the catch branch (lines 112-115) logs and
returns `null`. -/
def processTransaction (txq : Option HeliusTx) (walletAddress : String)
    (now : ℚ) : Option ProcessedTransaction :=
  match processTransactionBody txq walletAddress now with
  | Except.ok v => v
  | Except.error _ => none

/-- Result type of `classifyTradeType` (`'buy' | 'sell' | 'unknown'`). -/
inductive TradeType where
  | buy
  | sell
  | unknown
deriving DecidableEq

/-- Function `classifyTradeType` (`src/src/lib/solana.ts` lines 346-393): type-string
hints, then native transfers out of `tx.source`, then token transfers out of
`tx.source`, then instruction-name substrings of the serialized body, else
unknown. The `tx.nativeTransfers?.length > 0` and `tx.tokenTransfers?.length
> 0` guards are the matches on the lists. -/
def classifyTradeType (tx : HeliusTx) : TradeType :=
  let ty := strToLower tx.type
  let descr := txLowerString tx
  if strContains ty "buy" || strContains ty "swap_in" then .buy
  else if strContains ty "sell" || strContains ty "swap_out" then .sell
  else
    let afterNative : TradeType :=
      let afterToken : TradeType :=
        if strContains descr "swap_exact_tokens_for_tokens" ||
           strContains descr "swap_exact_sol_for_tokens" then .buy
        else if strContains descr "swap_exact_tokens_for_sol" ||
                strContains descr "swap_tokens_for_exact_sol" then .sell
        else .unknown
      match tx.tokenTransfers with
      | [] => afterToken
      | _ :: _ =>
        let totalTokensOut := tx.tokenTransfers.foldl
          (fun sum t => if t.fromUserAccount = tx.source then sum + t.amount else sum) 0
        if 0 < totalTokensOut then .sell else afterToken
    match tx.nativeTransfers with
    | [] => afterNative
    | _ :: _ =>
      let totalNativeOut := tx.nativeTransfers.foldl
        (fun sum t => if t.fromUserAccount = tx.source then sum + t.amount else sum) 0
      if 0 < totalNativeOut then .buy else afterNative

/-- The fixed keyword set of `isTradeTransaction`
(`src/src/lib/solana.ts` lines 312-325). -/
def tradeKeywordList : List String :=
  ["swap", "trade", "exchange", "jupiter", "orca", "raydium",
   "serum", "dex", "amm", "liquidity", "pool", "market"]

/-- Function `isTradeTransaction` (`src/src/lib/solana.ts` lines 305-344): a trade
keyword in the lower-cased type or serialized body, or (some transfer exists
and some account shows a balance change). -/
def isTradeTransaction (tx : HeliusTx) : Bool :=
  let ty := strToLower tx.type
  let descr := txLowerString tx
  let hasTradePattern :=
    tradeKeywordList.any (fun p => strContains ty p || strContains descr p)
  let hasTransfers :=
    !tx.nativeTransfers.isEmpty || !tx.tokenTransfers.isEmpty
  let hasBalanceChanges :=
    tx.accountData.any (fun a =>
      decide (a.nativeBalanceChange ≠ 0) || !a.tokenBalanceChanges.isEmpty)
  hasTradePattern || (hasTransfers && hasBalanceChanges)

/-- The native-transfer contribution of `calculateTradeValue`
(`src/src/lib/solana.ts` lines 401-403): the guarded sum of the raw transfer
amounts; `transfer.amount || 0` is the identity on the modelled rationals. -/
def nativeTransferSum (tx : HeliusTx) : ℚ :=
  match tx.nativeTransfers with
  | [] => 0
  | _ :: _ => tx.nativeTransfers.foldl (fun sum t => sum + t.amount) 0

/-- The token-transfer contribution of `calculateTradeValue`
(`src/src/lib/solana.ts` lines 406-408). -/
def tokenTransferSum (tx : HeliusTx) : ℚ :=
  match tx.tokenTransfers with
  | [] => 0
  | _ :: _ => tx.tokenTransfers.foldl (fun sum t => sum + t.amount) 0

/-- The per-account `change` local of `calculateTradeValue`
(`src/src/lib/solana.ts` lines 413-419): the raw native delta, plus — when
token changes exist — the sum of the absolute token-change amounts.
`account.nativeBalanceChange || 0` is the identity on the modelled
rationals. -/
def accountChange (a : AccountData) : ℚ :=
  match a.tokenBalanceChanges with
  | [] => a.nativeBalanceChange
  | _ :: _ => a.nativeBalanceChange +
      a.tokenBalanceChanges.foldl (fun ts t => ts + |t.amount|) 0

/-- The `balanceChanges` reduction of `calculateTradeValue`
(`src/src/lib/solana.ts` lines 412-423): the sum of `|change|` over all
`accountData` entries. -/
def balanceChangesSum (tx : HeliusTx) : ℚ :=
  tx.accountData.foldl (fun sum a => sum + |accountChange a|) 0

/-- Function `calculateTradeValue` (`src/src/lib/solana.ts` lines 395-430): the sum of
the raw native-transfer amounts plus the sum of the raw token-transfer
amounts (no absolute value is taken on either), then — only when
`accountData` is non-empty (line 411) — the maximum of that sum with
`balanceChangesSum`. -/
def calculateTradeValue (tx : HeliusTx) : ℚ :=
  let v := nativeTransferSum tx + tokenTransferSum tx
  match tx.accountData with
  | [] => v
  | _ :: _ => max v (balanceChangesSum tx)

/-- One element of the `trades` array built by `analyzeBatch`
(`src/src/lib/solana.ts` lines 435-442). -/
structure TradeRecord where
  type : TradeType
  value : ℚ
  timestamp : ℚ
  originalType : String
deriving DecidableEq

/-- The `trades` array of `analyzeBatch` (`src/src/lib/solana.ts`
lines 435-442): the raw transactions that qualify as trades, mapped to
trade records. -/
def batchTrades (txs : List HeliusTx) : List TradeRecord :=
  (txs.filter (fun tx => isTradeTransaction tx)).map
    (fun tx => { type := classifyTradeType tx
                 value := calculateTradeValue tx
                 timestamp := tx.timestamp
                 originalType := tx.type })

/-- Metric `totalTrades` of `analyzeBatch` (`src/src/lib/solana.ts` line 447). -/
def totalTrades (txs : List HeliusTx) : ℕ :=
  (batchTrades txs).length

/-- Metric `averageTradeValue` of `analyzeBatch` (`src/src/lib/solana.ts` line 448):
`trades.reduce((sum, t) => sum + t.value, 0) / totalTrades || 0`. With zero
trades the JavaScript division is `0 / 0 = NaN` and `NaN || 0` yields `0`;
rational division by zero already yields `0`, so the `|| 0` is absorbed. -/
def averageTradeValue (txs : List HeliusTx) : ℚ :=
  let trades := batchTrades txs
  (trades.foldl (fun sum t => sum + t.value) 0) / (trades.length : ℚ)

/-- Metric `buyCount` of `analyzeBatch` (`src/src/lib/solana.ts` line 445). -/
def buyCount (txs : List HeliusTx) : ℕ :=
  ((batchTrades txs).filter (fun t => t.type = .buy)).length

/-- Metric `sellCount` of `analyzeBatch` (`src/src/lib/solana.ts` line 446). -/
def sellCount (txs : List HeliusTx) : ℕ :=
  ((batchTrades txs).filter (fun t => t.type = .sell)).length

/-- A parsed token account as delivered by
`getParsedTokenAccountsByOwner` and read in `getTokenAccounts`
(`src/src/lib/solana.ts` lines 146-159): the `parsed.info` fields that the
code consumes. -/
structure ParsedTokenAccount where
  mint : String
  owner : String
  uiAmount : ℚ
  decimals : ℕ
deriving DecidableEq

/-- Interface `TokenMetadata` (`src/unnamed/part_003` lines 34-40). -/
structure TokenMetadata where
  mint : String
  name : String
  symbol : String
  decimals : ℕ
  logoURI : Option String
deriving DecidableEq

/-- The token-account object returned by `getTokenAccounts`
(`src/src/lib/solana.ts` lines 7-15 and 169-177). `WalletAnalyzer.tsx`
declares the richer `TokenBalance` interface with `price`, `change24h` and
`value` fields and reads `token.value`, but `getTokenAccounts` never assigns
any of them, so the runtime property `value` is modelled as an `Option` that
the producer leaves at `none`. -/
structure TokenAccountInfo where
  mint : String
  owner : String
  amount : ℚ
  decimals : ℕ
  symbol : String
  name : String
  logo : Option String
  value : Option ℚ
deriving DecidableEq

/-- Lookup in `metadataMap` (`src/src/lib/solana.ts` line 166):
`new Map(metadata.map(m => [m.mint, m]))` keeps the last entry per mint, so
the fold keeps the last match. -/
def metadataLookup (metadata : List TokenMetadata) (mint : String) :
    Option TokenMetadata :=
  metadata.foldl (fun acc m => if m.mint = mint then some m else acc) none

/-- The pure core of `getTokenAccounts` (`src/src/lib/solana.ts` lines
146-177, primary path): keep accounts with `uiAmount > 0`, project the parsed
fields, then enhance each account with metadata, defaulting the symbol and
name (`meta?.symbol || 'Unknown'`, `meta?.name || 'Unknown Token'`, so empty
strings are also defaulted). No `value` or `price` field is ever assigned. -/
def getTokenAccounts (parsed : List ParsedTokenAccount)
    (metadata : List TokenMetadata) : List TokenAccountInfo :=
  let tokenAccounts := parsed.filter (fun a => 0 < a.uiAmount)
  tokenAccounts.map (fun a =>
    let meta := metadataLookup metadata a.mint
    { mint := a.mint
      owner := a.owner
      amount := a.uiAmount
      decimals := a.decimals
      symbol := match meta with
        | some m => if m.symbol = "" then "Unknown" else m.symbol
        | none => "Unknown"
      name := match meta with
        | some m => if m.name = "" then "Unknown Token" else m.name
        | none => "Unknown Token"
      logo := match meta with
        | some m => m.logoURI
        | none => none
      value := none })

/-- The portfolio aggregation inside `fetchWalletData`
(`src/src/WalletAnalyzer.tsx` lines 89-92):
`solValue = balance * currentSolPrice`,
`tokenValue = tokenAccounts.reduce((acc, token) => acc + (token.value || 0), 0)`,
`totalValue = solValue + tokenValue`. Reading the absent `value` property
yields `undefined`, and `undefined || 0` is `0`, modelled by `Option.getD`. -/
def portfolioTotal (balance currentSolPrice : ℚ)
    (tokenAccounts : List TokenAccountInfo) : ℚ :=
  let solValue := balance * currentSolPrice
  let tokenValue := tokenAccounts.foldl
    (fun acc token => acc + token.value.getD 0) 0
  solValue + tokenValue

/-- A provider price result (`{ price, change24h }` in
`src/unnamed/part_005`). -/
structure PriceData where
  price : ℚ
  change24h : ℚ
deriving DecidableEq

/-- One entry of `PriceManager.cache` (`src/unnamed/part_005` line 12). -/
structure CacheEntry where
  price : ℚ
  change24h : ℚ
  timestamp : ℚ
deriving DecidableEq

/-- Constant `CACHE_DURATION` (`src/unnamed/part_005` line 13): one hour in
milliseconds. -/
def CACHE_DURATION : ℚ := 3600000

/-- The endpoint loop of `getSolanaPrice` (`src/unnamed/part_005` lines
101-112): the providers are tried in order and the first successful result
wins; `results` lists each provider's outcome (`none` when `fetchEndpoint`
failed or threw). -/
def firstSuccessfulFetch : List (Option PriceData) → Option PriceData
  | [] => none
  | some r :: _ => some r
  | none :: rest => firstSuccessfulFetch rest

/-- Function `getSolanaPrice` (`src/unnamed/part_005` lines 92-135) as a pure function
of the cache entry under key `"solana"`, the current time `now`
(`Date.now()`), and the provider outcomes. It returns the price data and the
cache entry after the call: a fresh cache entry is written only on a
successful provider fetch (line 105); the expired-cache fallback (lines
115-118) and the hardcoded fallback (line 122) leave the cache untouched. -/
def getSolanaPrice (cache : Option CacheEntry) (now : ℚ)
    (results : List (Option PriceData)) : PriceData × Option CacheEntry :=
  match cache with
  | some c =>
    if now - c.timestamp < CACHE_DURATION then
      ({ price := c.price, change24h := c.change24h }, some c)
    else
      match firstSuccessfulFetch results with
      | some r => (r, some { price := r.price, change24h := r.change24h, timestamp := now })
      | none => ({ price := c.price, change24h := c.change24h }, some c)
  | none =>
    match firstSuccessfulFetch results with
    | some r => (r, some { price := r.price, change24h := r.change24h, timestamp := now })
    | none => ({ price := 100, change24h := 0 }, none)

/-- The trade-value formula as the claim states it: the maximum of the sum of
the absolute values of all transfer amounts and the sum of the absolute
balance-change magnitudes across all account-data entries. Stated from the
claim's words for comparison with `calculateTradeValue`. -/
def claimTradeValue (tx : HeliusTx) : ℚ :=
  max ((tx.nativeTransfers.map (fun t => |t.amount|)).sum +
       (tx.tokenTransfers.map (fun t => |t.amount|)).sum)
      ((tx.accountData.map (fun a =>
        |a.nativeBalanceChange| +
        (a.tokenBalanceChanges.map (fun t => |t.amount|)).sum)).sum)

/-- The trade-value formula the code actually computes, stated in closed
form: the plain (not absolute) sum of native- and token-transfer amounts,
maximized — only when `accountData` is non-empty — with the per-account sum
of `|nativeBalanceChange + sum of |token-change amounts||`. -/
def amendedTradeValue (tx : HeliusTx) : ℚ :=
  let transferSum := (tx.nativeTransfers.map (fun t => t.amount)).sum +
                     (tx.tokenTransfers.map (fun t => t.amount)).sum
  let balanceSum := (tx.accountData.map (fun a =>
    |a.nativeBalanceChange +
     (a.tokenBalanceChanges.map (fun t => |t.amount|)).sum|)).sum
  if tx.accountData.isEmpty then transferSum else max transferSum balanceSum

/-- The classification procedure as the claim words it: type-string hints,
then positive total outgoing native amount from the reported source account,
then positive total outgoing token amount, then instruction-name substrings
of the serialized body, else unknown — with no guards on list emptiness.
Stated from the claim's words for comparison with `classifyTradeType`. -/
def classifySpec (tx : HeliusTx) : TradeType :=
  let ty := strToLower tx.type
  let body := txLowerString tx
  let nativeOutTotal : ℚ := tx.nativeTransfers.foldl
    (fun sum t => if t.fromUserAccount = tx.source then sum + t.amount else sum) 0
  let tokenOutTotal : ℚ := tx.tokenTransfers.foldl
    (fun sum t => if t.fromUserAccount = tx.source then sum + t.amount else sum) 0
  if strContains ty "buy" || strContains ty "swap_in" then .buy
  else if strContains ty "sell" || strContains ty "swap_out" then .sell
  else if 0 < nativeOutTotal then .buy
  else if 0 < tokenOutTotal then .sell
  else if strContains body "swap_exact_tokens_for_tokens" ||
          strContains body "swap_exact_sol_for_tokens" then .buy
  else if strContains body "swap_exact_tokens_for_sol" ||
          strContains body "swap_tokens_for_exact_sol" then .sell
  else .unknown

/-- Scenario-D token account: amount 5 with a known market price of 2 for its
mint (the price itself has nowhere to enter `getTokenAccounts`). -/
def acctScenarioD : ParsedTokenAccount :=
  { mint := "m1", owner := "w", uiAmount := 5, decimals := 6 }

/-- Metadata for the scenario-D mint. -/
def metaScenarioD : TokenMetadata :=
  { mint := "m1", name := "TokenName", symbol := "TKN", decimals := 6, logoURI := none }

/-- A transaction with one native transfer of amount 1 and one account-data
entry with native delta -5 and a token delta of 3; no swap/trade keyword
occurs in its serialization. -/
def txBalanceMismatch : HeliusTx :=
  { signature := "s2", type := "t", timestamp := 1, slot := 1, fee := 0
    nativeTransfers := [{ fromUserAccount := "a", toUserAccount := "b", amount := 1 }]
    tokenTransfers := []
    accountData := [{ account := "a", nativeBalanceChange := -5,
                      tokenBalanceChanges := [{ mint := "m", amount := 3 }] }]
    source := "a" }

/-- A transaction carrying both a native transfer (wallet `w` sends 2 SOL
worth of lamports) and a token transfer (wallet `w` sends 7 tokens); no swap
keyword occurs in its serialization. -/
def txBothTransfers : HeliusTx :=
  { signature := "s1", type := "TRANSFER", timestamp := 1, slot := 1, fee := 0
    nativeTransfers := [{ fromUserAccount := "w", toUserAccount := "x", amount := 2000000000 }]
    tokenTransfers := [{ fromUserAccount := "w", toUserAccount := "y", mint := "m", amount := 7 }]
    accountData := []
    source := "w" }

/-- A transaction whose only transfer is a token transfer with a negative
amount, between two accounts that are not the analyzed wallet. -/
def txTokenNegative : HeliusTx :=
  { signature := "s5", type := "TRANSFER", timestamp := 1, slot := 1, fee := 0
    nativeTransfers := []
    tokenTransfers := [{ fromUserAccount := "a", toUserAccount := "b", mint := "m", amount := -5 }]
    accountData := []
    source := "a" }

/-- Scenario B: a single native transfer of 500000 lamports (0.0005 SOL,
below the 0.001 dust threshold) out of wallet `w`. -/
def txDustNative : HeliusTx :=
  { signature := "sb", type := "TRANSFER", timestamp := 1, slot := 1, fee := 0
    nativeTransfers := [{ fromUserAccount := "w", toUserAccount := "x", amount := 500000 }]
    tokenTransfers := []
    accountData := []
    source := "w" }

/-- A transaction with no transfers, no balance changes and no trade keyword
anywhere: `isTradeTransaction` rejects it. -/
def txPlainNoTrade : HeliusTx :=
  { signature := "s7", type := "unknown", timestamp := 3, slot := 1, fee := 0
    nativeTransfers := [], tokenTransfers := [], accountData := []
    source := "a" }

/-- A transaction with a third-party native transfer (neither side is the
wallet `w`) and also a token transfer between third parties. -/
def txBothThirdParty : HeliusTx :=
  { signature := "s9c", type := "XFER", timestamp := 1, slot := 1, fee := 0
    nativeTransfers := [{ fromUserAccount := "a", toUserAccount := "b", amount := 3000000000 }]
    tokenTransfers := [{ fromUserAccount := "c", toUserAccount := "d", mint := "m", amount := 9 }]
    accountData := []
    source := "a" }

/-- A transaction whose only content is one third-party native transfer of
2 SOL worth of lamports (neither side is the wallet `w`). -/
def txThirdPartyNative : HeliusTx :=
  { signature := "s9", type := "XFER", timestamp := 7, slot := 1, fee := 0
    nativeTransfers := [{ fromUserAccount := "a", toUserAccount := "b", amount := 2000000000 }]
    tokenTransfers := []
    accountData := []
    source := "a" }

/-- Folding addition of `f` over a list equals the initial value plus the sum
of the mapped list. -/
theorem foldl_add_map {α : Type} (f : α → ℚ) (l : List α) :
    ∀ init : ℚ, l.foldl (fun s t => s + f t) init = init + (l.map f).sum := by
  induction l with
  | nil => intro init; simp
  | cons a as ih => intro init; simp [ih, add_assoc]

/-- When every element of a mapped list has no `value` property, the
portfolio reduction leaves its accumulator unchanged. -/
theorem foldl_value_none {α : Type} (f : α → TokenAccountInfo)
    (hf : ∀ a, (f a).value = none) (l : List α) :
    ∀ c : ℚ, (l.map f).foldl (fun acc token => acc + token.value.getD 0) c = c := by
  induction l with
  | nil => intro c; rfl
  | cons a as ih => intro c; simp [hf a, ih]

/-- The portfolio total is blind to every token account produced by
`getTokenAccounts`: since no `value` property is ever assigned, the token
reduction contributes exactly 0 and the total collapses to the native value,
whatever prices are known. -/
theorem portfolioTotal_ignores_tokens (balance price : ℚ)
    (parsed : List ParsedTokenAccount) (metadata : List TokenMetadata) :
    portfolioTotal balance price (getTokenAccounts parsed metadata) =
      balance * price := by
  unfold portfolioTotal getTokenAccounts
  rw [foldl_value_none _ (fun a => rfl)]
  exact add_zero _

/-- C1: at nativeBalance 10, nativePrice 150, and one token account of amount
5 whose mint has a known price of 2, the aggregated total is 1500, not the
1510 the claim requires: `getTokenAccounts` never assigns the `value`
property that `fetchWalletData` sums, so every token contributes 0. -/
theorem C1_portfolio_scenarioD :
    portfolioTotal 10 150 (getTokenAccounts [acctScenarioD] [metaScenarioD]) = 1500 ∧
    (1500 : ℚ) ≠ 1510 := by
  decide

/-- C6: whenever the body of `processTransaction` raises, the surrounding
`try/catch` turns the result into `null`; no exception escapes. -/
theorem C6_normalize_never_raises (txq : Option HeliusTx)
    (walletAddress : String) (now : ℚ) (e : String)
    (h : processTransactionBody txq walletAddress now = Except.error e) :
    processTransaction txq walletAddress now = none := by
  unfold processTransaction
  rw [h]

/-- Witness for C6: a null raw transaction makes the body throw, and
`processTransaction` returns `null`. -/
theorem C6_normalize_never_raises_witness :
    processTransaction none "w" 0 = none :=
  C6_normalize_never_raises none "w" 0
    "TypeError: Cannot read properties of null" rfl

/-- C7: with zero qualifying trades the average trade value is exactly 0 —
the division `sum / totalTrades || 0` never surfaces a `NaN`. -/
theorem C7_average_zero_without_trades (txs : List HeliusTx)
    (h : totalTrades txs = 0) : averageTradeValue txs = 0 := by
  unfold totalTrades at h
  show ((batchTrades txs).foldl (fun sum t => sum + t.value) 0) /
      ((batchTrades txs).length : ℚ) = 0
  rw [h]
  simp

/-- Witness for C7: a batch holding one transaction that is not a trade has
average trade value 0. -/
theorem C7_average_zero_without_trades_witness :
    averageTradeValue [txPlainNoTrade] = 0 :=
  C7_average_zero_without_trades [txPlainNoTrade] (by decide)

/-- When every provider outcome is a failure, the endpoint loop produces
nothing. -/
theorem firstSuccessfulFetch_none {results : List (Option PriceData)}
    (h : ∀ r ∈ results, r = none) : firstSuccessfulFetch results = none := by
  induction results with
  | nil => rfl
  | cons a rest ih =>
    have ha := h a (by simp)
    subst ha
    simp only [firstSuccessfulFetch]
    exact ih (fun r hr => h r (by simp [hr]))

/-- C8: when every provider fails, `getSolanaPrice` returns the hardcoded
fallback `{price: 100, change24h: 0}` if no cache entry exists, and returns
the cached value instead when an (expired) cache entry exists. -/
theorem C8_price_fallbacks (cache : Option CacheEntry) (now : ℚ)
    (results : List (Option PriceData)) (hall : ∀ r ∈ results, r = none) :
    (cache = none →
      getSolanaPrice cache now results =
        ({ price := 100, change24h := 0 }, none)) ∧
    (∀ c, cache = some c → CACHE_DURATION ≤ now - c.timestamp →
      (getSolanaPrice cache now results).1 =
        { price := c.price, change24h := c.change24h }) := by
  constructor
  · intro hc
    subst hc
    unfold getSolanaPrice
    rw [firstSuccessfulFetch_none hall]
  · intro c hc hexp
    subst hc
    show (if now - c.timestamp < CACHE_DURATION then _ else
      match firstSuccessfulFetch results with
      | some r => (r, some { price := r.price, change24h := r.change24h, timestamp := now })
      | none => ({ price := c.price, change24h := c.change24h }, some c) : PriceData × Option CacheEntry).1 = _
    rw [if_neg (not_lt.mpr hexp), firstSuccessfulFetch_none hall]

/-- Witness for C8: with three failed providers, an empty cache yields the
hardcoded fallback, and an expired cache entry (price 120, one hour old)
is served unchanged. -/
theorem C8_price_fallbacks_witness :
    getSolanaPrice none 5 [none, none, none] =
      ({ price := 100, change24h := 0 }, none) ∧
    (getSolanaPrice (some { price := 120, change24h := 5, timestamp := 0 })
      3600000 [none, none, none]).1 = { price := 120, change24h := 5 } :=
  ⟨(C8_price_fallbacks none 5 [none, none, none] (by decide)).1 rfl,
   (C8_price_fallbacks (some { price := 120, change24h := 5, timestamp := 0 })
      3600000 [none, none, none] (by decide)).2
      { price := 120, change24h := 5, timestamp := 0 } rfl (by decide)⟩

/-- C10: the price cache is written only with a value fetched from a
provider: after any call, the cache is either unchanged or holds exactly the
first successful provider result stamped with the call time. The hardcoded
sentinel and the expired-cache fallback are never written back. -/
theorem C10_cache_only_stores_fetched (cache : Option CacheEntry) (now : ℚ)
    (results : List (Option PriceData)) :
    (getSolanaPrice cache now results).2 = cache ∨
    ∃ r, firstSuccessfulFetch results = some r ∧
      (getSolanaPrice cache now results).2 =
        some { price := r.price, change24h := r.change24h, timestamp := now } ∧
      (getSolanaPrice cache now results).1 = r := by
  unfold getSolanaPrice
  cases cache with
  | none =>
    cases hf : firstSuccessfulFetch results with
    | none => left; simp [hf]
    | some r => right; exact ⟨r, rfl, by simp [hf], by simp [hf]⟩
  | some c =>
    by_cases hv : now - c.timestamp < CACHE_DURATION
    · left; simp [hv]
    · cases hf : firstSuccessfulFetch results with
      | none => left; simp [hv, hf]
      | some r => right; exact ⟨r, rfl, by simp [hv, hf], by simp [hv, hf]⟩

/-- The guarded native-transfer reduction equals the plain sum of amounts. -/
theorem nativeTransferSum_eq (tx : HeliusTx) :
    nativeTransferSum tx = (tx.nativeTransfers.map (fun t => t.amount)).sum := by
  unfold nativeTransferSum
  rcases h : tx.nativeTransfers with _ | ⟨n, ns⟩
  · simp
  · simp [foldl_add_map]

/-- The guarded token-transfer reduction equals the plain sum of amounts. -/
theorem tokenTransferSum_eq (tx : HeliusTx) :
    tokenTransferSum tx = (tx.tokenTransfers.map (fun t => t.amount)).sum := by
  unfold tokenTransferSum
  rcases h : tx.tokenTransfers with _ | ⟨n, ns⟩
  · simp
  · simp [foldl_add_map]

/-- The per-account `change` local equals the native delta plus the sum of
absolute token-change amounts. -/
theorem accountChange_eq (a : AccountData) :
    accountChange a = a.nativeBalanceChange +
      (a.tokenBalanceChanges.map (fun t => |t.amount|)).sum := by
  unfold accountChange
  rcases h : a.tokenBalanceChanges with _ | ⟨c, cs⟩
  · simp
  · simp [foldl_add_map]

/-- The `balanceChanges` reduction equals the sum over accounts of the
absolute combined change. -/
theorem balanceChangesSum_eq (tx : HeliusTx) :
    balanceChangesSum tx = (tx.accountData.map (fun a =>
      |a.nativeBalanceChange +
       (a.tokenBalanceChanges.map (fun t => |t.amount|)).sum|)).sum := by
  unfold balanceChangesSum
  rw [foldl_add_map (fun a => |accountChange a|)]
  simp [accountChange_eq]

/-- C2 (amended): the estimated trade value is the plain — not absolute —
sum of all transfer amounts, maximized with the per-account sum of
`|nativeBalanceChange + sum of |token-change amounts||` only when
`accountData` is non-empty; it is non-negative whenever every transfer
amount is non-negative, and it is 0 when all three lists are empty. -/
theorem C2_trade_value_formula (tx : HeliusTx) :
    calculateTradeValue tx = amendedTradeValue tx ∧
    ((∀ t ∈ tx.nativeTransfers, 0 ≤ t.amount) →
     (∀ t ∈ tx.tokenTransfers, 0 ≤ t.amount) →
     0 ≤ calculateTradeValue tx) ∧
    (tx.nativeTransfers = [] → tx.tokenTransfers = [] → tx.accountData = [] →
     calculateTradeValue tx = 0) := by
  have htrans : ∀ hn : ∀ t ∈ tx.nativeTransfers, 0 ≤ t.amount,
      ∀ ht : ∀ t ∈ tx.tokenTransfers, 0 ≤ t.amount,
      0 ≤ nativeTransferSum tx + tokenTransferSum tx := by
    intro hn ht
    rw [nativeTransferSum_eq, tokenTransferSum_eq]
    apply add_nonneg <;> apply List.sum_nonneg <;> intro x hx
    · obtain ⟨t, htm, rfl⟩ := List.mem_map.1 hx
      exact hn t htm
    · obtain ⟨t, htm, rfl⟩ := List.mem_map.1 hx
      exact ht t htm
  refine ⟨?_, ?_, ?_⟩
  · rcases h : tx.accountData with _ | ⟨a, as⟩
    · simp [calculateTradeValue, amendedTradeValue, h,
            nativeTransferSum_eq, tokenTransferSum_eq]
    · simp [calculateTradeValue, amendedTradeValue, h,
            nativeTransferSum_eq, tokenTransferSum_eq, balanceChangesSum_eq]
  · intro hn ht
    unfold calculateTradeValue
    rcases h : tx.accountData with _ | ⟨a, as⟩
    · exact htrans hn ht
    · refine le_trans ?_ (le_max_right _ _)
      rw [balanceChangesSum_eq]
      apply List.sum_nonneg
      intro x hx
      obtain ⟨t, htm, rfl⟩ := List.mem_map.1 hx
      exact abs_nonneg _
  · intro h1 h2 h3
    unfold calculateTradeValue nativeTransferSum tokenTransferSum
    rw [h1, h2, h3]
    rfl

/-- Counterexample for C2: on a transaction with one native transfer of
amount 1 and one account-data entry with native delta -5 and token delta 3,
the code computes `max 1 |(-5) + |3|| = 2`, while the claimed formula
`max 1 (|-5| + |3|) = 8` differs. -/
theorem C2_counterexample :
    calculateTradeValue txBalanceMismatch = 2 ∧
    claimTradeValue txBalanceMismatch = 8 ∧
    (2 : ℚ) ≠ 8 := by
  decide

/-- Witness for C2: a transaction with only non-negative transfer amounts has
a non-negative trade value. -/
theorem C2_trade_value_formula_witness :
    0 ≤ calculateTradeValue txBalanceMismatch :=
  (C2_trade_value_formula txBalanceMismatch).2.1 (by decide) (by decide)

/-- C3 (amended): the token-transfer branch of the normalizer runs whenever
token transfers exist — it is a plain `if`, not an `else if` — so even in the
presence of native transfers the inferred amount and token symbol come from
the first token transfer, and (absent a swap-keyword hit) so does the type
when that transfer involves the wallet. -/
theorem C3_token_branch_always_runs (tx : HeliusTx) (wallet : String)
    (t : TokenTransfer) (rest : List TokenTransfer)
    (h : tx.tokenTransfers = t :: rest) :
    (inferTransaction tx wallet).amount = t.amount ∧
    (inferTransaction tx wallet).tokenSymbol = "Token" ∧
    (swapKeywordHit tx = false →
      (t.fromUserAccount = wallet →
        (inferTransaction tx wallet).type = "Send Token") ∧
      (t.fromUserAccount ≠ wallet → t.toUserAccount = wallet →
        (inferTransaction tx wallet).type = "Receive Token")) := by
  unfold inferTransaction
  rw [h]
  cases hs : swapKeywordHit tx <;>
    by_cases hf : t.fromUserAccount = wallet <;>
      by_cases ht2 : t.toUserAccount = wallet <;>
        simp [hs, hf, ht2]

/-- Counterexample for C3: on a transaction carrying both a native transfer
(2 SOL out of the wallet) and a token transfer (7 tokens out of the wallet),
the normalizer reports the token transfer's type, amount and symbol, not the
native transfer's (`"Send SOL"`, 2, `"SOL"`). -/
theorem C3_counterexample :
    (processTransactionCore txBothTransfers "w" 0).map
      (fun p => (p.type, p.amount, p.tokenSymbol)) =
      some ("Send Token", 7, "Token") ∧
    ("Send Token", (7 : ℚ), "Token") ≠
      ("Send SOL", 2000000000 / LAMPORTS_PER_SOL, "SOL") := by
  decide

/-- Witness for C3 (amended): on the two-transfer transaction the inferred
amount is 7, the symbol is the token placeholder, and the type is the
token-branch type. -/
theorem C3_token_branch_always_runs_witness :
    (inferTransaction txBothTransfers "w").amount = 7 ∧
    (inferTransaction txBothTransfers "w").tokenSymbol = "Token" ∧
    (inferTransaction txBothTransfers "w").type = "Send Token" := by
  obtain ⟨h1, h2, h3⟩ := C3_token_branch_always_runs txBothTransfers "w"
    { fromUserAccount := "w", toUserAccount := "y", mint := "m", amount := 7 }
    [] rfl
  exact ⟨h1, h2, (h3 (by decide)).1 rfl⟩

/-- C4: `classifyTradeType` implements exactly the claimed precedence order —
type-string hints, then outgoing native total from the reported source, then
outgoing token total, then instruction-name substrings of the serialized
body, else unknown. -/
theorem C4_classify_precedence (tx : HeliusTx) :
    classifyTradeType tx = classifySpec tx := by
  unfold classifyTradeType classifySpec
  rcases hn : tx.nativeTransfers with _ | ⟨n, ns⟩ <;>
    rcases ht : tx.tokenTransfers with _ | ⟨t, ts⟩ <;>
      simp [hn, ht]

/-- C5 (amended): every record the normalizer returns has a nonzero amount,
and an amount at or above the 0.001 dust threshold whenever its token symbol
is the native symbol; a zero resolved amount, or a native resolved amount
below the threshold, produces `null`. (Strict positivity does not hold: a
negative token amount passes both filters.) -/
theorem C5_amount_filters (tx : HeliusTx) (wallet : String) (now : ℚ) :
    (∀ p, processTransactionCore tx wallet now = some p →
      p.amount ≠ 0 ∧ (p.tokenSymbol = "SOL" → MIN_SOL_AMOUNT ≤ p.amount)) ∧
    ((inferTransaction tx wallet).amount = 0 →
      processTransactionCore tx wallet now = none) ∧
    ((inferTransaction tx wallet).tokenSymbol = "SOL" →
      (inferTransaction tx wallet).amount < MIN_SOL_AMOUNT →
      processTransactionCore tx wallet now = none) := by
  unfold processTransactionCore
  generalize inferTransaction tx wallet = r
  refine ⟨?_, ?_, ?_⟩
  · intro p hp
    by_cases h1 : r.tokenSymbol = "SOL" ∧ r.amount < MIN_SOL_AMOUNT
    · rw [if_pos h1] at hp
      exact absurd hp (by simp)
    · rw [if_neg h1] at hp
      by_cases h2 : r.amount = 0
      · rw [if_pos h2] at hp
        exact absurd hp (by simp)
      · rw [if_neg h2] at hp
        obtain rfl := Option.some.inj hp
        refine ⟨h2, fun hsol => ?_⟩
        exact not_lt.mp (fun hlt => h1 ⟨hsol, hlt⟩)
  · intro h0
    by_cases h1 : r.tokenSymbol = "SOL" ∧ r.amount < MIN_SOL_AMOUNT
    · rw [if_pos h1]
    · rw [if_neg h1, if_pos h0]
  · intro hsol hlt
    rw [if_pos ⟨hsol, hlt⟩]

/-- Counterexample for C5: a token transfer of amount -5 passes both filters,
so the normalizer returns a record whose amount is negative, not strictly
positive. -/
theorem C5_counterexample :
    (processTransactionCore txTokenNegative "w" 0).map (fun p => p.amount) =
      some (-5) ∧ ¬ (0 : ℚ) < -5 := by
  decide

/-- Witness for C5 (amended): scenario B — a lone native transfer of 500000
lamports (0.0005 SOL) is dropped by the dust filter. -/
theorem C5_amount_filters_witness :
    processTransactionCore txDustNative "w" 0 = none :=
  (C5_amount_filters txDustNative "w" 0).2.2 (by decide) (by decide)
/-- C9 (amended): a raw transaction with a nonempty type, no token transfers,
no swap keyword, and a first native transfer between two accounts that are
both different from the analyzed wallet is still normalized (when it clears
the dust threshold) into a record whose type is the raw type string
unchanged, whose description is empty, and whose amount comes from that
third-party transfer — third-party transfers are not excluded from the
feed. -/
theorem C9_thirdparty_not_excluded (tx : HeliusTx) (wallet : String) (now : ℚ)
    (t : NativeTransfer) (rest : List NativeTransfer)
    (hn : tx.nativeTransfers = t :: rest)
    (htok : tx.tokenTransfers = [])
    (hsw : swapKeywordHit tx = false)
    (hf : t.fromUserAccount ≠ wallet)
    (ht : t.toUserAccount ≠ wallet)
    (hty : tx.type ≠ "")
    (hmin : MIN_SOL_AMOUNT ≤ t.amount / LAMPORTS_PER_SOL) :
    processTransactionCore tx wallet now = some
      { signature := tx.signature
        type := tx.type
        amount := t.amount / LAMPORTS_PER_SOL
        timestamp := if tx.timestamp = 0 then now else tx.timestamp
        status := "success"
        tokenSymbol := "SOL"
        fee := tx.fee
        description := "" } := by
  have hpos : (0 : ℚ) < MIN_SOL_AMOUNT := by norm_num [MIN_SOL_AMOUNT]
  have hinf : inferTransaction tx wallet =
      { type := tx.type, amount := t.amount / LAMPORTS_PER_SOL,
        tokenSymbol := "SOL", description := "" } := by
    unfold inferTransaction
    rw [hn, htok, hsw]
    simp [hf, ht, hty]
  have hamt : (inferTransaction tx wallet).amount =
      t.amount / LAMPORTS_PER_SOL := by rw [hinf]
  have hc1 : ¬ ((inferTransaction tx wallet).tokenSymbol = "SOL" ∧
      (inferTransaction tx wallet).amount < MIN_SOL_AMOUNT) := by
    rintro ⟨-, hlt⟩
    rw [hamt] at hlt
    exact absurd hlt (not_lt.mpr hmin)
  have hc2 : ¬ ((inferTransaction tx wallet).amount = 0) := by
    intro h0
    rw [hamt] at h0
    rw [h0] at hmin
    exact absurd hmin (not_le.mpr hpos)
  unfold processTransactionCore
  rw [if_neg hc1, if_neg hc2, hinf]

/-- Counterexample for C9: when a token transfer is also present, the amount
of the returned record comes from the token transfer (9), not from the
third-party native transfer (3 SOL), though type and description still pass
through unchanged. -/
theorem C9_counterexample :
    (processTransactionCore txBothThirdParty "w" 0).map
      (fun p => (p.type, p.amount, p.description)) = some ("XFER", 9, "") ∧
    (9 : ℚ) ≠ 3000000000 / LAMPORTS_PER_SOL := by
  decide

/-- Witness for C9 (amended): a lone third-party native transfer of 2 SOL is
normalized with the raw type `"XFER"`, amount 2 and an empty description. -/
theorem C9_thirdparty_not_excluded_witness :
    processTransactionCore txThirdPartyNative "w" 5 = some
      { signature := "s9", type := "XFER", amount := 2, timestamp := 7,
        status := "success", tokenSymbol := "SOL", fee := 0,
        description := "" } := by
  have h := C9_thirdparty_not_excluded txThirdPartyNative "w" 5
    { fromUserAccount := "a", toUserAccount := "b", amount := 2000000000 }
    [] rfl rfl (by decide) (by decide) (by decide) (by decide) (by decide)
  rw [h]
  decide
